import Mathlib

/-!
Shallow embedding of the spacebot Channel orchestration core
(`src/agent/channel.rs`): the channel state, the spawn protocol for
branches and workers, the event handler, and the pure message/context
formatting helpers, together with theorems settling the specification
claims about them.

Identifiers (`BranchId`, `WorkerId`) are opaque in the source (UUIDs);
they are modelled as `Nat`.  Conversation history entries are
`rig::message::Message` values built from strings; they are modelled as
the strings themselves.  `HashMap<Id, _>` tracking maps are modelled as
lists of ids (the mapped-to task handles / worker values carry no
information the claims depend on); `HashMap::remove` becomes
`List.erase` and `HashMap::insert` of a fresh id becomes an append.
-/

namespace Spacebot

/-- A metadata value as used through `serde_json::Value::as_str`:
either a string or something whose `as_str` is `None`. -/
inductive MetaValue where
  | str (s : String)
  | other
deriving DecidableEq

/-- `Value::as_str`. -/
def MetaValue.asStr : MetaValue → Option String
  | .str s => some s
  | .other => none

/-- `MessageContent` from the crate root: `Text(String)` or
`Media { text: Option<String>, .. }` (extra media fields are ignored by
the channel, which only reads `text`). -/
inductive MessageContent where
  | text (t : String)
  | media (text : Option String)
deriving DecidableEq

/-- `InboundMessage` (crate root): the fields the channel reads.
`metadata: HashMap<String, Value>` is modelled as an association list;
`agent_id` and `timestamp` are never inspected by the channel code and
are omitted. -/
structure InboundMessage where
  id : String
  source : String
  conversationId : String
  senderId : String
  content : MessageContent
  metadata : List (String × MetaValue)
deriving DecidableEq

/-- `message.metadata.get(key)`. -/
def metaGet (metadata : List (String × MetaValue)) (key : String) : Option MetaValue :=
  (metadata.find? (fun kv => kv.1 == key)).map (·.2)

/-- The `raw_text` extraction in `Channel::handle_message`:
`Text(text) => text`, `Media { text, .. } => text.unwrap_or_default()`. -/
def rawTextOf : MessageContent → String
  | .text t => t
  | .media t => t.getD ""

/-- `format_user_message` (channel.rs lines 479-490): system-sourced
messages pass through unchanged; otherwise the text is attributed with
the sender display name from metadata, falling back to `sender_id`. -/
def format_user_message (rawText : String) (message : InboundMessage) : String :=
  if message.source = "system" then
    rawText
  else
    let displayName :=
      ((metaGet message.metadata "sender_display_name").bind MetaValue.asStr).getD
        message.senderId
    "[" ++ displayName ++ "]: " ++ rawText

/-- `build_conversation_context` (channel.rs lines 496-512): platform
line, optional Discord server and channel lines, and a fixed multi-user
note, joined with newlines. -/
def build_conversation_context (message : InboundMessage) : String :=
  let guildLines :=
    match (metaGet message.metadata "discord_guild_name").bind MetaValue.asStr with
    | some guildName => ["Server: " ++ guildName]
    | none => []
  let channelLines :=
    match (metaGet message.metadata "discord_channel_name").bind MetaValue.asStr with
    | some channelName => ["Channel: #" ++ channelName]
    | none => []
  String.intercalate "\n"
    (["Platform: " ++ message.source] ++ guildLines ++ channelLines ++
      ["Multiple users may be present. Each message is prefixed with [username]."])

/-- Modelled from the spec: `StatusBlock` (agent/status.rs, not under
src/) — "a mutable aggregate with per-entry text keyed by
BranchId/WorkerId".  Entries are kept as association lists. -/
structure StatusBlock where
  branches : List (Nat × String)
  workers : List (Nat × String)
deriving DecidableEq

/-- Modelled from the spec: `StatusBlock::new()` — no entries. -/
def StatusBlock.new : StatusBlock := ⟨[], []⟩

/-- Modelled from the spec: `add_branch(id, text)` registers a branch
status entry. -/
def StatusBlock.add_branch (sb : StatusBlock) (branchId : Nat) (text : String) : StatusBlock :=
  { sb with branches := sb.branches ++ [(branchId, text)] }

/-- Modelled from the spec: `add_worker(id, text, interactive_flag)`
registers a worker status entry; the interactive flag does not appear in
the status text. -/
def StatusBlock.add_worker (sb : StatusBlock) (workerId : Nat) (text : String)
    (_interactive : Bool) : StatusBlock :=
  { sb with workers := sb.workers ++ [(workerId, text)] }

/-- `ProcessEvent` (crate root): the variants the channel recognizes.
`BranchResult` carries further fields matched with `..` in channel.rs;
they are never read there and are omitted.  `.other` stands for every
status-only variant. -/
inductive ProcessEvent where
  | branchResult (branchId : Nat) (conclusion : String)
  | workerComplete (agentId : String) (workerId : Nat) (channelId : Option String)
      (result : String) (notify : Bool)
  | other
deriving DecidableEq

/-- Modelled from the spec: `StatusBlock::update(event)` — "interprets
recognized ProcessEvent variants to refresh or clear entries": a
completion event clears the entry for its id, other variants leave the
block unchanged. -/
def StatusBlock.update (sb : StatusBlock) (event : ProcessEvent) : StatusBlock :=
  match event with
  | .branchResult branchId _ =>
      { sb with branches := sb.branches.filter (fun e => e.1 != branchId) }
  | .workerComplete _ workerId _ _ _ =>
      { sb with workers := sb.workers.filter (fun e => e.1 != workerId) }
  | .other => sb

/-- Modelled from the spec: `StatusBlock::render()` — a "deterministic
multi-line string, empty string when no entries exist". -/
def StatusBlock.render (sb : StatusBlock) : String :=
  if sb.branches.isEmpty && sb.workers.isEmpty then ""
  else
    String.intercalate "\n"
      (sb.branches.map (fun e => "Branch " ++ toString e.1 ++ ": " ++ e.2) ++
        sb.workers.map (fun e => "Worker " ++ toString e.1 ++ ": " ++ e.2))

/-- `AgentError` (crate error module): the variants relevant to the
channel core.  `BranchLimitReached { channel_id, max }` is the error the
spawn protocol surfaces. -/
inductive AgentError where
  | branchLimitReached (channelId : String) (max : Nat)
  | otherError (message : String)
deriving DecidableEq

/-- `ChannelState` (channel.rs lines 40-51): the lock-protected shared
state, with the tracking maps as id lists and the spawn-irrelevant
dependency fields omitted. -/
structure ChannelState where
  channelId : String
  history : List String
  activeBranches : List Nat
  activeWorkers : List Nat
  statusBlock : StatusBlock
  maxConcurrentBranches : Nat
deriving DecidableEq

/-- `spawn_branch_from_state` (channel.rs lines 352-406) as a state
transition.  The branch id is a UUID minted by `Branch::new`; it enters
here as the `newBranchId` parameter.  At or above the cap the function
returns `BranchLimitReached` without touching the state; below it, the
new id is inserted into `active_branches` and a "thinking..." status
entry is added. -/
def spawn_branch_from_state (state : ChannelState) (newBranchId : Nat)
    (_description : String) : Except AgentError Nat × ChannelState :=
  if state.activeBranches.length ≥ state.maxConcurrentBranches then
    (.error (.branchLimitReached state.channelId state.maxConcurrentBranches), state)
  else
    (.ok newBranchId,
      { state with
        activeBranches := state.activeBranches ++ [newBranchId],
        statusBlock := state.statusBlock.add_branch newBranchId "thinking..." })

/-- The body of the task spawned by `spawn_worker_from_state`
(channel.rs lines 440-463): the events it sends on the bus, as a
function of the outcome of `worker.run()`.  A success sends one
`WorkerComplete` with the result text; a failure sends one
`WorkerComplete` whose result is `"Worker failed: {error}"`; `notify` is
`true` in both arms. -/
def worker_completion_events (agentId : String) (workerId : Nat)
    (channelId : Option String) (runResult : Except String String) : List ProcessEvent :=
  match runResult with
  | .ok resultText =>
      [.workerComplete agentId workerId channelId resultText true]
  | .error error =>
      [.workerComplete agentId workerId channelId ("Worker failed: " ++ error) true]

/-- `Channel::handle_event` (channel.rs lines 280-342), state part:
update the status block, then dispatch on the event — `BranchResult`
removes the branch id and appends `"[Branch result]: {conclusion}"` to
history, flagging a re-trigger; `WorkerComplete` removes the worker id
and, only when `notify` is true, appends `"[Worker completed]:
{result}"` and flags a re-trigger; other variants update status only.
Returns the new state and the re-trigger flag. -/
def handle_event_core (state : ChannelState) (event : ProcessEvent) :
    ChannelState × Bool :=
  let statusUpdated := state.statusBlock.update event
  match event with
  | .branchResult branchId conclusion =>
      ({ state with
          statusBlock := statusUpdated,
          activeBranches := state.activeBranches.erase branchId,
          history := state.history ++ ["[Branch result]: " ++ conclusion] }, true)
  | .workerComplete _ workerId _ result notify =>
      let base :=
        { state with
          statusBlock := statusUpdated,
          activeWorkers := state.activeWorkers.erase workerId }
      if notify then
        ({ base with history := base.history ++ ["[Worker completed]: " ++ result] }, true)
      else
        (base, false)
  | .other => ({ state with statusBlock := statusUpdated }, false)

/-- The synthetic re-trigger message `handle_event` builds (channel.rs
lines 323-334); the `id` is a fresh UUID, entering as a parameter. -/
def retrigger_message (conversationId : String) (freshId : String) : InboundMessage :=
  { id := freshId
    source := "system"
    conversationId := conversationId
    senderId := "system"
    content := .text "[System: a background process has completed. Check your history and status block for the result, then respond to the user.]"
    metadata := [] }

/-- `Channel::handle_event` in full: the state transition together with
the re-trigger message submitted to the channel's own inbound queue
(`none` when no re-trigger is flagged or no conversation id is known;
the `try_send` itself is best-effort and may drop the message, which is
outside this transition). -/
def handle_event (state : ChannelState) (conversationId : Option String)
    (freshId : String) (event : ProcessEvent) : ChannelState × Option InboundMessage :=
  let out := handle_event_core state event
  match conversationId with
  | some cid => if out.2 then (out.1, some (retrigger_message cid freshId)) else (out.1, none)
  | none => (out.1, none)

/-- The outcome of one completion-agent call, `rig`'s `PromptError`
shapes as matched in `Channel::handle_message` (channel.rs lines
252-274): success text, `MaxTurnsError`, `PromptCancelled { reason }`,
or any other failure. -/
inductive PromptResult where
  | ok (text : String)
  | maxTurnsError
  | promptCancelled (reason : String)
  | failed (message : String)
deriving DecidableEq

/-- `OutboundResponse` (crate root): a text reply or a status update
(only `Thinking` is sent by the channel). -/
inductive OutboundResponse where
  | text (s : String)
  | statusThinking
deriving DecidableEq

/-- The responses `handle_message` sends after the completion-agent
result is known (the `match result` block, channel.rs lines 252-274):
on success a trimmed non-empty text is sent as a fallback reply;
`MaxTurnsError`, `PromptCancelled` and any other failure send nothing
and only log. -/
def result_responses : PromptResult → List OutboundResponse
  | .ok response =>
      let text := response.trim
      if text.isEmpty then [] else [.text text]
  | .maxTurnsError => []
  | .promptCancelled _ => []
  | .failed _ => []

/-- All outbound responses of one turn that reaches the completion
agent: the `Thinking` status update sent before the call (channel.rs
line 237) followed by the result-dependent responses. -/
def turn_responses (result : PromptResult) : List OutboundResponse :=
  OutboundResponse.statusThinking :: result_responses result

/-- The value `handle_message` returns once the completion agent has
run: every arm of the `match result` falls through to `Ok(())`
(channel.rs line 276). -/
def handle_message_outcome : PromptResult → Except AgentError Unit
  | .ok _ => .ok ()
  | .maxTurnsError => .ok ()
  | .promptCancelled _ => .ok ()
  | .failed _ => .ok ()

/-- The termination condition of the `tokio::select!` loop in
`Channel::run` (channel.rs lines 143-157): the `else => break` arm
fires only when both the inbound-message queue and the event-bus
subscription are closed. -/
def loop_breaks (messagesClosed eventsClosed : Bool) : Bool :=
  messagesClosed && eventsClosed

/-- The `conversation_id` / `conversation_context` pair of a `Channel`
(channel.rs lines 80-82), both `None` at construction. -/
structure ConvCapture where
  conversationId : Option String
  conversationContext : Option String
deriving DecidableEq

/-- The capture steps of `Channel::handle_message` (channel.rs lines
176-191): each field is set from the message only while still `None`. -/
def capture_conversation (capture : ConvCapture) (message : InboundMessage) : ConvCapture :=
  { conversationId :=
      match capture.conversationId with
      | none => some message.conversationId
      | some v => some v
    conversationContext :=
      match capture.conversationContext with
      | none => some (build_conversation_context message)
      | some v => some v }

/-- The capture state after a channel handles a sequence of messages,
starting from the freshly constructed channel. -/
def capture_after (messages : List InboundMessage) : ConvCapture :=
  messages.foldl capture_conversation ⟨none, none⟩

/-- The conversation-context section string appended to the system
prompt when a context is known: header plus the context text, nothing
when the context is still unknown. -/
def context_section : Option String → String
  | some context => "\n\n## Conversation Context\n\n" ++ context
  | none => ""

/-- The per-turn system prompt assembly of `Channel::handle_message`
(channel.rs lines 198-211): identity context (with a blank line) only
when non-empty, then the channel's base system prompt, then the
conversation-context section when known, then the current-status
section when the rendered status text is non-empty. -/
def build_system_prompt (identityContext basePrompt : String)
    (conversationContext : Option String) (statusText : String) : String :=
  let p1 := if identityContext.isEmpty then "" else identityContext ++ "\n\n"
  let p2 := p1 ++ basePrompt
  let p3 :=
    match conversationContext with
    | some context => p2 ++ "\n\n## Conversation Context\n\n" ++ context
    | none => p2
  if statusText.isEmpty then p3 else p3 ++ "\n\n## Current Status\n\n" ++ statusText

/-! ## Theorems -/

/-- C1: a spawn-branch call with `ActiveBranches.len() ≥
max_concurrent_branches` returns `BranchLimitReached` carrying the
channel id and the max and leaves the whole state unchanged; a call
below the cap returns the new `BranchId`, inserts exactly one entry
into `ActiveBranches`, adds a "thinking..." status entry, leaves
history and `ActiveWorkers` untouched, and keeps
`ActiveBranches.len() ≤ max_concurrent_branches`. -/
theorem spawn_branch_cap (state : ChannelState) (newId : Nat) (description : String) :
    (state.activeBranches.length ≥ state.maxConcurrentBranches →
      spawn_branch_from_state state newId description =
        (.error (.branchLimitReached state.channelId state.maxConcurrentBranches), state)) ∧
    (state.activeBranches.length < state.maxConcurrentBranches →
      (spawn_branch_from_state state newId description).1 = .ok newId ∧
      (spawn_branch_from_state state newId description).2.activeBranches =
        state.activeBranches ++ [newId] ∧
      (spawn_branch_from_state state newId description).2.activeBranches.length =
        state.activeBranches.length + 1 ∧
      (spawn_branch_from_state state newId description).2.activeBranches.length ≤
        state.maxConcurrentBranches ∧
      (spawn_branch_from_state state newId description).2.history = state.history ∧
      (spawn_branch_from_state state newId description).2.activeWorkers =
        state.activeWorkers ∧
      (spawn_branch_from_state state newId description).2.statusBlock =
        state.statusBlock.add_branch newId "thinking...") := by
  constructor
  · intro hfull
    simp [spawn_branch_from_state, hfull]
  · intro hlt
    have hnot : ¬state.activeBranches.length ≥ state.maxConcurrentBranches := not_le.mpr hlt
    refine ⟨?_, ?_, ?_, ?_, ?_, ?_, ?_⟩ <;> simp [spawn_branch_from_state, hnot]
    omega

/-- Witness for C1 at concrete states: one at the cap, one below it. -/
theorem spawn_branch_cap_witness :
    spawn_branch_from_state ⟨"chan", [], [1], [], StatusBlock.new, 1⟩ 9 "d" =
      (.error (.branchLimitReached "chan" 1),
        ⟨"chan", [], [1], [], StatusBlock.new, 1⟩) ∧
    (spawn_branch_from_state ⟨"chan", [], [], [], StatusBlock.new, 1⟩ 9 "d").1 = .ok 9 :=
  ⟨(spawn_branch_cap ⟨"chan", [], [1], [], StatusBlock.new, 1⟩ 9 "d").1 (by decide),
    ((spawn_branch_cap ⟨"chan", [], [], [], StatusBlock.new, 1⟩ 9 "d").2 (by decide)).1⟩

/-- C2: the task spawned per worker emits exactly one `WorkerComplete`
event whether the run succeeds or fails; every emitted event carries the
worker id, the spawning channel id and `notify = true`; on success the
result is the run's result text, on failure it is
`"Worker failed: {error}"`. -/
theorem worker_complete_exactly_once (agentId : String) (workerId : Nat)
    (channelId : Option String) (runResult : Except String String) :
    (worker_completion_events agentId workerId channelId runResult).length = 1 ∧
    (∀ e ∈ worker_completion_events agentId workerId channelId runResult,
      ∃ r, e = .workerComplete agentId workerId channelId r true) ∧
    (∀ resultText, runResult = .ok resultText →
      worker_completion_events agentId workerId channelId runResult =
        [.workerComplete agentId workerId channelId resultText true]) ∧
    (∀ error, runResult = .error error →
      worker_completion_events agentId workerId channelId runResult =
        [.workerComplete agentId workerId channelId ("Worker failed: " ++ error) true]) := by
  cases runResult <;> simp [worker_completion_events]

/-- Witness for C2 at a concrete success and a concrete failure. -/
theorem worker_complete_exactly_once_witness :
    (worker_completion_events "a" 3 (some "chan") (.ok "done")).length = 1 ∧
    worker_completion_events "a" 3 (some "chan") (.error "boom") =
      [.workerComplete "a" 3 (some "chan") ("Worker failed: " ++ "boom") true] :=
  ⟨(worker_complete_exactly_once "a" 3 (some "chan") (.ok "done")).1,
    (worker_complete_exactly_once "a" 3 (some "chan") (.error "boom")).2.2.2 "boom" rfl⟩

/-- C3: a `BranchResult` event removes the branch id from
`ActiveBranches` and appends exactly one history entry
`"[Branch result]: {conclusion}"`, flagging a re-trigger; a
`WorkerComplete` event with `notify = true` removes the worker id from
`ActiveWorkers` and appends exactly one history entry
`"[Worker completed]: {result}"`, flagging a re-trigger. -/
theorem event_incorporation (state : ChannelState) (branchId : Nat) (conclusion : String)
    (agentId : String) (workerId : Nat) (channelId : Option String) (result : String) :
    ((handle_event_core state (.branchResult branchId conclusion)).1.activeBranches =
        state.activeBranches.erase branchId ∧
      (state.activeBranches.Nodup →
        branchId ∉
          (handle_event_core state (.branchResult branchId conclusion)).1.activeBranches) ∧
      (handle_event_core state (.branchResult branchId conclusion)).1.history =
        state.history ++ ["[Branch result]: " ++ conclusion] ∧
      (handle_event_core state (.branchResult branchId conclusion)).2 = true) ∧
    ((handle_event_core state
          (.workerComplete agentId workerId channelId result true)).1.activeWorkers =
        state.activeWorkers.erase workerId ∧
      (state.activeWorkers.Nodup →
        workerId ∉
          (handle_event_core state
            (.workerComplete agentId workerId channelId result true)).1.activeWorkers) ∧
      (handle_event_core state
          (.workerComplete agentId workerId channelId result true)).1.history =
        state.history ++ ["[Worker completed]: " ++ result] ∧
      (handle_event_core state (.workerComplete agentId workerId channelId result true)).2 =
        true) := by
  refine ⟨⟨rfl, ?_, rfl, rfl⟩, ⟨rfl, ?_, rfl, rfl⟩⟩
  · intro hnd
    exact hnd.not_mem_erase
  · intro hnd
    exact hnd.not_mem_erase

/-- Witness for C3 at a concrete state tracking branch 5 and worker 3. -/
theorem event_incorporation_witness :
    5 ∉ (handle_event_core ⟨"c", [], [5], [3], StatusBlock.new, 5⟩
        (.branchResult 5 "done")).1.activeBranches ∧
    (handle_event_core ⟨"c", [], [5], [3], StatusBlock.new, 5⟩
        (.branchResult 5 "done")).1.history = [] ++ ["[Branch result]: " ++ "done"] ∧
    3 ∉ (handle_event_core ⟨"c", [], [5], [3], StatusBlock.new, 5⟩
        (.workerComplete "a" 3 (some "c") "ok" true)).1.activeWorkers :=
  ⟨((event_incorporation ⟨"c", [], [5], [3], StatusBlock.new, 5⟩ 5 "done" "a" 3 (some "c")
        "ok").1.2.1 (by decide)),
    (event_incorporation ⟨"c", [], [5], [3], StatusBlock.new, 5⟩ 5 "done" "a" 3 (some "c")
        "ok").1.2.2.1,
    ((event_incorporation ⟨"c", [], [5], [3], StatusBlock.new, 5⟩ 5 "done" "a" 3 (some "c")
        "ok").2.2.1 (by decide))⟩

/-- C5: a `WorkerComplete` event with `notify = false` removes the
worker id from `ActiveWorkers`, leaves history unchanged, flags no
re-trigger, submits no re-trigger message for any conversation id, and
still updates the status block. -/
theorem worker_complete_silent (state : ChannelState) (agentId : String) (workerId : Nat)
    (channelId : Option String) (result : String) (conversationId : Option String)
    (freshId : String) :
    (handle_event_core state
        (.workerComplete agentId workerId channelId result false)).1.history =
      state.history ∧
    (handle_event_core state
        (.workerComplete agentId workerId channelId result false)).1.activeWorkers =
      state.activeWorkers.erase workerId ∧
    (handle_event_core state (.workerComplete agentId workerId channelId result false)).2 =
      false ∧
    (handle_event state conversationId freshId
        (.workerComplete agentId workerId channelId result false)).2 = none ∧
    (handle_event_core state
        (.workerComplete agentId workerId channelId result false)).1.statusBlock =
      state.statusBlock.update (.workerComplete agentId workerId channelId result false) := by
  cases conversationId <;> simp [handle_event, handle_event_core]

/-- C4 counterexample: a channel tracking no branches at all still
appends `"[Branch result]: x"` to its history, flags a re-trigger, and
submits a re-trigger message when it receives a `BranchResult` for the
untracked branch id 7 — `handle_event` never tests id presence before
mutating. -/
theorem handle_event_untracked_counterexample :
    7 ∉ (⟨"chan", [], [], [], StatusBlock.new, 5⟩ : ChannelState).activeBranches ∧
    (handle_event_core ⟨"chan", [], [], [], StatusBlock.new, 5⟩
        (.branchResult 7 "x")).1.history = ["[Branch result]: x"] ∧
    (handle_event_core ⟨"chan", [], [], [], StatusBlock.new, 5⟩
        (.branchResult 7 "x")).2 = true ∧
    (handle_event ⟨"chan", [], [], [], StatusBlock.new, 5⟩ (some "conv") "m1"
        (.branchResult 7 "x")).2 = some (retrigger_message "conv" "m1") := by
  refine ⟨by decide, ?_, rfl, rfl⟩
  rfl

/-- C4 amended: `handle_event` applies no pertinence check.  Even when
the event's id is absent from this channel's tracking map, a
`BranchResult` — and likewise a `WorkerComplete` with `notify = true` —
appends its history entry and flags a re-trigger; the only protection
is that removing the absent id leaves the tracking map unchanged. -/
theorem handle_event_untracked_amended (state : ChannelState) (branchId : Nat)
    (conclusion : String) (agentId : String) (workerId : Nat) (channelId : Option String)
    (result : String) (hbr : branchId ∉ state.activeBranches)
    (hwk : workerId ∉ state.activeWorkers) :
    ((handle_event_core state (.branchResult branchId conclusion)).1.activeBranches =
        state.activeBranches ∧
      (handle_event_core state (.branchResult branchId conclusion)).1.history =
        state.history ++ ["[Branch result]: " ++ conclusion] ∧
      (handle_event_core state (.branchResult branchId conclusion)).2 = true) ∧
    ((handle_event_core state
          (.workerComplete agentId workerId channelId result true)).1.activeWorkers =
        state.activeWorkers ∧
      (handle_event_core state
          (.workerComplete agentId workerId channelId result true)).1.history =
        state.history ++ ["[Worker completed]: " ++ result] ∧
      (handle_event_core state (.workerComplete agentId workerId channelId result true)).2 =
        true) := by
  refine ⟨⟨?_, rfl, rfl⟩, ⟨?_, rfl, rfl⟩⟩
  · simpa [handle_event_core] using List.erase_of_not_mem hbr
  · simpa [handle_event_core] using List.erase_of_not_mem hwk

/-- Witness for the amended C4 at a channel tracking branches 1 and 2
and worker 4, which receives a result for the foreign branch 9 and a
completion for the foreign worker 8. -/
theorem handle_event_untracked_amended_witness :
    (handle_event_core ⟨"c2", ["h"], [1, 2], [4], StatusBlock.new, 5⟩
        (.branchResult 9 "y")).1.activeBranches = [1, 2] ∧
    (handle_event_core ⟨"c2", ["h"], [1, 2], [4], StatusBlock.new, 5⟩
        (.branchResult 9 "y")).1.history = ["h"] ++ ["[Branch result]: " ++ "y"] ∧
    (handle_event_core ⟨"c2", ["h"], [1, 2], [4], StatusBlock.new, 5⟩
        (.workerComplete "a" 8 (some "c2") "r" true)).1.activeWorkers = [4] ∧
    (handle_event_core ⟨"c2", ["h"], [1, 2], [4], StatusBlock.new, 5⟩
        (.workerComplete "a" 8 (some "c2") "r" true)).1.history =
      ["h"] ++ ["[Worker completed]: " ++ "r"] :=
  ⟨(handle_event_untracked_amended ⟨"c2", ["h"], [1, 2], [4], StatusBlock.new, 5⟩ 9 "y"
      "a" 8 (some "c2") "r" (by decide) (by decide)).1.1,
    (handle_event_untracked_amended ⟨"c2", ["h"], [1, 2], [4], StatusBlock.new, 5⟩ 9 "y"
      "a" 8 (some "c2") "r" (by decide) (by decide)).1.2.1,
    (handle_event_untracked_amended ⟨"c2", ["h"], [1, 2], [4], StatusBlock.new, 5⟩ 9 "y"
      "a" 8 (some "c2") "r" (by decide) (by decide)).2.1,
    (handle_event_untracked_amended ⟨"c2", ["h"], [1, 2], [4], StatusBlock.new, 5⟩ 9 "y"
      "a" 8 (some "c2") "r" (by decide) (by decide)).2.2.1⟩

/-- C6: when the completion agent returns `MaxTurnsError`, the turn
sends nothing after the result is known — in particular no text reply
is among the turn's outbound responses — `handle_message` returns
without error, and the event loop breaks only when both the inbound
queue and the event subscription are closed. -/
theorem max_turns_silent (s : String) (messagesClosed eventsClosed : Bool) :
    result_responses .maxTurnsError = [] ∧
    OutboundResponse.text s ∉ turn_responses .maxTurnsError ∧
    handle_message_outcome .maxTurnsError = .ok () ∧
    (loop_breaks messagesClosed eventsClosed = true ↔
      messagesClosed = true ∧ eventsClosed = true) := by
  refine ⟨rfl, ?_, rfl, ?_⟩
  · simp [turn_responses, result_responses]
  · cases messagesClosed <;> cases eventsClosed <;> simp [loop_breaks]

/-- Witness for C6 at a concrete response text and loop state. -/
theorem max_turns_silent_witness :
    result_responses .maxTurnsError = [] ∧
    OutboundResponse.text "x" ∉ turn_responses .maxTurnsError ∧
    handle_message_outcome .maxTurnsError = .ok () :=
  ⟨(max_turns_silent "x" true true).1, (max_turns_silent "x" true true).2.1,
    (max_turns_silent "x" true true).2.2.1⟩

/-- Once both capture fields are set, handling further messages never
changes them. -/
theorem capture_conversation_fixed (messages : List InboundMessage) (a b : String) :
    messages.foldl capture_conversation ⟨some a, some b⟩ = ⟨some a, some b⟩ := by
  induction messages with
  | nil => rfl
  | cons m ms ih =>
      have hstep : capture_conversation ⟨some a, some b⟩ m = ⟨some a, some b⟩ := rfl
      simp [List.foldl_cons, hstep, ih]

/-- C9: `conversation_id` and `conversation_context` are both `None`
on a fresh channel, are set from the first handled message, and are
never overwritten by any later message. -/
theorem conversation_captured_once (first : InboundMessage) (rest : List InboundMessage) :
    capture_after [] = ⟨none, none⟩ ∧
    capture_after (first :: rest) =
      ⟨some first.conversationId, some (build_conversation_context first)⟩ := by
  refine ⟨rfl, ?_⟩
  have hstep : capture_conversation ⟨none, none⟩ first =
      ⟨some first.conversationId, some (build_conversation_context first)⟩ := rfl
  simp [capture_after, List.foldl_cons, hstep, capture_conversation_fixed]

/-- C7: the per-turn system prompt is the in-order concatenation of the
identity context (only when non-empty), the base system prompt, the
conversation-context section (only when known), and the current-status
section (only when the rendered status text is non-empty); a status
block tracking no branches and no workers renders to the empty string,
so its section is entirely absent from the prompt. -/
theorem system_prompt_assembly (identityContext basePrompt : String)
    (conversationContext : Option String) (sb : StatusBlock) (statusText : String) :
    (sb.branches = [] → sb.workers = [] → sb.render = "") ∧
    (sb.branches = [] → sb.workers = [] →
      build_system_prompt identityContext basePrompt conversationContext sb.render =
        build_system_prompt identityContext basePrompt conversationContext "") ∧
    (identityContext.isEmpty = true →
      build_system_prompt identityContext basePrompt conversationContext "" =
        basePrompt ++ context_section conversationContext) ∧
    (¬identityContext.isEmpty = true →
      build_system_prompt identityContext basePrompt conversationContext "" =
        identityContext ++ "\n\n" ++ basePrompt ++ context_section conversationContext) ∧
    (¬statusText.isEmpty = true →
      build_system_prompt identityContext basePrompt conversationContext statusText =
        build_system_prompt identityContext basePrompt conversationContext "" ++
          "\n\n## Current Status\n\n" ++ statusText) := by
  refine ⟨?_, ?_, ?_, ?_, ?_⟩
  · intro h1 h2
    simp [StatusBlock.render, h1, h2]
  · intro h1 h2
    simp [StatusBlock.render, h1, h2]
  · intro hid
    have hempty : ("" : String).isEmpty = true := rfl
    cases conversationContext <;>
      simp [build_system_prompt, context_section, hid, hempty, String.empty_append,
        String.append_empty, String.append_assoc]
  · intro hid
    have hempty : ("" : String).isEmpty = true := rfl
    cases conversationContext <;>
      simp [build_system_prompt, context_section, hid, hempty, String.append_empty,
        String.append_assoc]
  · intro hst
    have hempty : ("" : String).isEmpty = true := rfl
    simp [build_system_prompt, hst, hempty]

/-- Witness for C7 with a concrete identity, base prompt, context and
the empty status block. -/
theorem system_prompt_assembly_witness :
    StatusBlock.new.render = "" ∧
    build_system_prompt "ID" "BASE" (some "CTX") StatusBlock.new.render =
      "ID" ++ "\n\n" ++ "BASE" ++ context_section (some "CTX") := by
  have h := system_prompt_assembly "ID" "BASE" (some "CTX") StatusBlock.new "ST"
  refine ⟨h.1 rfl rfl, ?_⟩
  rw [h.2.1 rfl rfl]
  exact h.2.2.2.1 (by decide)

/-- C8: a non-system message whose metadata maps `sender_display_name`
to the string "Alice" formats the text "hi" as exactly `"[Alice]: hi"`;
any message with `source == "system"` passes its text through
unchanged. -/
theorem format_user_message_attribution (message : InboundMessage) (t : String) :
    (message.source ≠ "system" →
      (metaGet message.metadata "sender_display_name").bind MetaValue.asStr =
        some "Alice" →
      format_user_message "hi" message = "[Alice]: hi") ∧
    (message.source = "system" → format_user_message t message = t) := by
  constructor
  · intro hsrc hname
    simp [format_user_message, hsrc, hname]
  · intro hsrc
    simp [format_user_message, hsrc]

/-- Witness for C8: a concrete Discord message from Alice, and a
concrete system message. -/
theorem format_user_message_attribution_witness :
    format_user_message "hi"
      ⟨"m1", "discord", "conv", "u7", .text "hi",
        [("sender_display_name", MetaValue.str "Alice")]⟩ = "[Alice]: hi" ∧
    format_user_message "raw"
      ⟨"m2", "system", "conv", "system", .text "raw", []⟩ = "raw" :=
  ⟨(format_user_message_attribution
      ⟨"m1", "discord", "conv", "u7", .text "hi",
        [("sender_display_name", MetaValue.str "Alice")]⟩ "x").1 (by decide) rfl,
    (format_user_message_attribution
      ⟨"m2", "system", "conv", "system", .text "raw", []⟩ "raw").2 rfl⟩

/-- C10: a non-system message whose metadata has no string
`sender_display_name` entry falls back to the sender id, formatting as
`"[{sender_id}]: {text}"`; this also applies to the empty text a
caption-less media message extracts, which formats as
`"[{sender_id}]: "`. -/
theorem format_user_message_fallback (message : InboundMessage)
    (hsrc : message.source ≠ "system")
    (hname : (metaGet message.metadata "sender_display_name").bind MetaValue.asStr = none) :
    (∀ rawText, format_user_message rawText message =
      "[" ++ message.senderId ++ "]: " ++ rawText) ∧
    format_user_message (rawTextOf (MessageContent.media none)) message =
      "[" ++ message.senderId ++ "]: " := by
  have h : ∀ rawText, format_user_message rawText message =
      "[" ++ message.senderId ++ "]: " ++ rawText := by
    intro rawText
    simp [format_user_message, hsrc, hname]
  refine ⟨h, ?_⟩
  simpa [rawTextOf, String.append_empty] using h (rawTextOf (MessageContent.media none))

/-- Witness for C10: a concrete media message with no caption whose
metadata's `sender_display_name` is not a string. -/
theorem format_user_message_fallback_witness :
    format_user_message "hello"
      ⟨"m3", "discord", "conv", "u7", .media none,
        [("sender_display_name", MetaValue.other)]⟩ =
      "[" ++ "u7" ++ "]: " ++ "hello" ∧
    format_user_message
      (rawTextOf (MessageContent.media none))
      ⟨"m3", "discord", "conv", "u7", .media none,
        [("sender_display_name", MetaValue.other)]⟩ =
      "[" ++ "u7" ++ "]: " :=
  ⟨(format_user_message_fallback
      ⟨"m3", "discord", "conv", "u7", .media none,
        [("sender_display_name", MetaValue.other)]⟩ (by decide) (by decide)).1 "hello",
    (format_user_message_fallback
      ⟨"m3", "discord", "conv", "u7", .media none,
        [("sender_display_name", MetaValue.other)]⟩ (by decide) (by decide)).2⟩

end Spacebot
